import Mathlib

/-!
Shallow embedding of the scoring and ranking pipeline of the
agent-mira-case-study repository.

Numbers of the JavaScript source are modelled as rationals (`ℚ`);
nullable values as `Option ℚ`.  A JavaScript falsiness guard such as
`!budget` is translated faithfully: it is true for `null`/`undefined`
(`none`) and for the number `0`.

Embedded files:
  * `src/common/utils/filtering.js` (provided as `src/unnamed/part_001`):
    `fitsBudget`, `meetsBedroomRequirement`, `matchesPreferredLocation`,
    `filterProperties`.
  * `src/common/utils/scoring.js`: the six sub-scores,
    `computeTotalScore`, `computeRuleScore`.
  * `src/case-study-B-ml-recommender/backend-node/src/server.js`:
    `toNumberOrNull`, the preference normalisation (budget default),
    `priceToScore`, `computeFinalScore`, the matchScore rounding,
    the sort-and-cap of recommendations, and the ML fallback messages.
  * `src/case-study-B-ml-recommender/backend-node/src/services/mlClient.js`:
    `getMlScoresForProperties`.
-/

/-- A JavaScript value in a position where the server coerces with
`toNumberOrNull`: it is `undefined`/`null`, the empty string, a value whose
`Number(...)` coercion is not finite (`NaN`/`Infinity`/unparsable string),
or a finite number (possibly given as a numeric string). -/
inductive JsInput where
  | missing
  | emptyStr
  | nonFinite
  | num (q : ℚ)
deriving DecidableEq

/-- Embeds `toNumberOrNull` of `server.js` (lines 55-61): `undefined`, `null`
and the empty string give `null`; otherwise the `Number(...)` coercion is
returned when finite, else `null`. -/
def toNumberOrNull : JsInput → Option ℚ
  | .missing => none
  | .emptyStr => none
  | .nonFinite => none
  | .num q => some q

/-- Embeds the budget normalisation of the `POST /recommendations` handler
(`server.js` lines 187 and 197-199): `preferences.budget` is
`toNumberOrNull(mergedPrefs.budget)`, and when that is `null` it is replaced
by the default `250000`. -/
def normalizeBudget (raw : JsInput) : ℚ :=
  (toNumberOrNull raw).getD 250000

/-- The nested characteristics bag of a property record. -/
structure Characteristics where
  beds : Option ℚ := none
  school_rating : Option ℚ := none
  commute_time : Option ℚ := none
  property_age : Option ℚ := none
  amenities : Option (List String) := none
deriving DecidableEq

/-- The `ml_metadata` sub-object a scored property may carry. -/
structure MlMeta where
  predicted_price : Option ℚ := none
deriving DecidableEq

/-- A property record with the fields read by filtering and scoring.
Absent fields are `none`. -/
structure Property where
  price : Option ℚ := none
  list_price : Option ℚ := none
  listing_price : Option ℚ := none
  listingPrice : Option ℚ := none
  bedrooms : Option ℚ := none
  beds : Option ℚ := none
  school_rating : Option ℚ := none
  commute_time : Option ℚ := none
  property_age : Option ℚ := none
  amenities : Option (List String) := none
  predicted_price : Option ℚ := none
  modelPredictedPrice : Option ℚ := none
  ml_metadata : Option MlMeta := none
  characteristics : Option Characteristics := none
  location : Option String := none
  city : Option String := none
  neighbourhood : Option String := none
  state : Option String := none
deriving DecidableEq

/-- The normalised preference fields consumed by `filterProperties` and the
scoring functions. -/
structure Preferences where
  budget : Option ℚ := none
  minBedrooms : Option ℚ := none
  preferredLocations : List String := []
deriving DecidableEq

/-- The price fallback chain of `fitsBudget` (`filtering.js`):
`property.price ?? property.list_price ?? property.listing_price ??
property.listingPrice ?? null`. -/
def resolvePrice (p : Property) : Option ℚ :=
  p.price <|> p.list_price <|> p.listing_price <|> p.listingPrice

/-- Embeds `fitsBudget` of `filtering.js`: a falsy (`null`/`0`) or
non-positive budget always passes, a property with no resolvable price
always passes, otherwise the resolved price must be at most the budget. -/
def fitsBudget (p : Property) (budget : Option ℚ) : Bool :=
  match budget with
  | none => true
  | some b =>
    if b ≤ 0 then true
    else
      match resolvePrice p with
      | none => true
      | some price => price ≤ b

/-- The bedroom fallback chain used both by `meetsBedroomRequirement`
(`filtering.js`) and by `computeRuleScore` (`scoring.js`):
`property.bedrooms ?? property.beds ?? property.characteristics?.beds ??
null`. -/
def resolveBeds (p : Property) : Option ℚ :=
  p.bedrooms <|> p.beds <|> (p.characteristics.bind Characteristics.beds)

/-- Embeds `meetsBedroomRequirement` of `filtering.js`: a falsy or
non-positive minimum always passes, a property with no resolvable bedroom
count always passes, otherwise the count must reach the minimum. -/
def meetsBedroomRequirement (p : Property) (minBedrooms : Option ℚ) : Bool :=
  match minBedrooms with
  | none => true
  | some m =>
    if m ≤ 0 then true
    else
      match resolveBeds p with
      | none => true
      | some b => m ≤ b

/-- The location tokens of `matchesPreferredLocation`: the four candidate
fields, dropped when absent or empty (JavaScript `.filter(Boolean)`), then
trimmed. -/
def locationTokens (p : Property) : List String :=
  (([p.location, p.city, p.neighbourhood, p.state].filterMap id).filter
    (fun s => !s.isEmpty)).map String.trim

/-- Embeds `matchesPreferredLocation` of `filtering.js`: an empty preferred
list always passes; otherwise some preferred string must equal one of the
property location tokens exactly. -/
def matchesPreferredLocation (p : Property) (preferredLocations : List String) : Bool :=
  if preferredLocations.isEmpty then true
  else preferredLocations.any (fun preferred => (locationTokens p).contains preferred)

/-- Embeds `filterProperties` of `filtering.js`: keep the properties passing
the budget, bedroom and location checks. -/
def filterProperties (properties : List Property) (preferences : Preferences) : List Property :=
  properties.filter (fun property =>
    fitsBudget property preferences.budget &&
    meetsBedroomRequirement property preferences.minBedrooms &&
    matchesPreferredLocation property preferences.preferredLocations)

/-- Embeds `computePriceMatchScore` of `scoring.js` (lines 7-19): a falsy or
non-positive budget, or a falsy (`null`/`0`) predicted price, gives the
neutral 50; a predicted price at most the budget gives 100; otherwise
a linear penalty with floor 0. -/
def computePriceMatchScore (predictedPrice userBudget : Option ℚ) : ℚ :=
  match userBudget with
  | none => 50
  | some b =>
    if b ≤ 0 then 50
    else
      match predictedPrice with
      | none => 50
      | some p =>
        if p = 0 then 50
        else if p ≤ b then 100
        else max 0 (100 - (p - b) / b * 100)

/-- Embeds `computeBedroomScore` of `scoring.js` (lines 27-35): a falsy or
non-positive minimum gives 100; a falsy (`null`/`0`) bedroom count gives 0;
a count reaching the minimum gives 100; otherwise a proportional score
clamped to [0,100]. -/
def computeBedroomScore (propertyBedrooms userMinBedrooms : Option ℚ) : ℚ :=
  match userMinBedrooms with
  | none => 100
  | some m =>
    if m ≤ 0 then 100
    else
      match propertyBedrooms with
      | none => 0
      | some b =>
        if b = 0 then 0
        else if m ≤ b then 100
        else max 0 (min 100 (b / m * 100))

/-- Embeds `computeSchoolRatingScore` of `scoring.js`: `null` gives 50,
otherwise `rating / 10 × 100` clamped to [0,100]. -/
def computeSchoolRatingScore (schoolRating : Option ℚ) : ℚ :=
  match schoolRating with
  | none => 50
  | some r => max 0 (min 100 (r / 10 * 100))

/-- Embeds `computeCommuteScore` of `scoring.js`: `null` gives 50, then the
step thresholds 15/30/45 minutes. -/
def computeCommuteScore (commuteTime : Option ℚ) : ℚ :=
  match commuteTime with
  | none => 50
  | some t =>
    if t ≤ 15 then 100
    else if t ≤ 30 then 80
    else if t ≤ 45 then 50
    else 20

/-- Embeds `computePropertyAgeScore` of `scoring.js`: `null` gives 60, then
the step thresholds 5/15/30 years. -/
def computePropertyAgeScore (propertyAge : Option ℚ) : ℚ :=
  match propertyAge with
  | none => 60
  | some a =>
    if a ≤ 5 then 100
    else if a ≤ 15 then 80
    else if a ≤ 30 then 60
    else 40

/-- Boolean prefix test on character lists, used to model the JavaScript
substring test `String.prototype.includes`. -/
def charsPrefix : List Char → List Char → Bool
  | [], _ => true
  | _ :: _, [] => false
  | a :: as, b :: bs => a == b && charsPrefix as bs

/-- Boolean contiguous-substring test on character lists. -/
def charsSub (pat : List Char) : List Char → Bool
  | [] => pat.isEmpty
  | c :: rest => charsPrefix pat (c :: rest) || charsSub pat rest

/-- Models `a.includes(pat)` on JavaScript strings. -/
def strContainsSub (s pat : String) : Bool :=
  charsSub pat.toList s.toList

/-- The amenity normalisation of `computeAmenitiesScore`:
`(a || '').toLowerCase().trim()`. -/
def normalizeAmenity (a : String) : String :=
  a.toLower.trim

/-- Embeds `computeAmenitiesScore` of `scoring.js` (lines 74-89): an empty
list gives 0; otherwise three keyword families (pool, garage,
garden-or-backyard) are detected by substring match on the lower-cased,
trimmed, non-blank amenity texts, and the score is `matched / 3 × 100`. -/
def computeAmenitiesScore (amenities : List String) : ℚ :=
  if amenities.isEmpty then 0
  else
    let normalized := ((amenities.map normalizeAmenity).filter (fun a => a.length > 0))
    let hasPool := normalized.any (fun a => strContainsSub a (r"pool"))
    let hasGarage := normalized.any (fun a => strContainsSub a (r"garage"))
    let hasGarden :=
      normalized.any (fun a => strContainsSub a (r"garden")) ||
      normalized.any (fun a => strContainsSub a (r"backyard"))
    let trueCount : ℚ :=
      (if hasPool then 1 else 0) + (if hasGarage then 1 else 0) +
        (if hasGarden then 1 else 0)
    trueCount / 3 * 100

/-- Embeds `computeTotalScore` of `scoring.js` (lines 96-114): the fixed
weighted combination of the six sub-scores, with the destructuring defaults
50/50/50/50/60/0 applied to absent components. -/
def computeTotalScore (priceMatchScore bedroomScore schoolRatingScore
    commuteScore propertyAgeScore amenitiesScore : Option ℚ) : ℚ :=
  0.3 * priceMatchScore.getD 50 +
  0.2 * bedroomScore.getD 50 +
  0.15 * schoolRatingScore.getD 50 +
  0.15 * commuteScore.getD 50 +
  0.1 * propertyAgeScore.getD 60 +
  0.1 * amenitiesScore.getD 0

/-- The predicted-price fallback chain of `computeRuleScore`:
`property.predicted_price ?? property.modelPredictedPrice ??
property.ml_metadata?.predicted_price ?? null`. -/
def resolvePredictedPrice (p : Property) : Option ℚ :=
  p.predicted_price <|> p.modelPredictedPrice <|>
    (p.ml_metadata.bind MlMeta.predicted_price)

/-- Embeds `computeRuleScore` of `scoring.js` (lines 122-160): resolve each
input through its fallback chain and combine the six sub-scores with
`computeTotalScore`. -/
def computeRuleScore (property : Property) (preferences : Preferences) : ℚ :=
  computeTotalScore
    (some (computePriceMatchScore (resolvePredictedPrice property) preferences.budget))
    (some (computeBedroomScore (resolveBeds property) preferences.minBedrooms))
    (some (computeSchoolRatingScore
      (property.school_rating <|> (property.characteristics.bind Characteristics.school_rating))))
    (some (computeCommuteScore
      (property.commute_time <|> (property.characteristics.bind Characteristics.commute_time))))
    (some (computePropertyAgeScore
      (property.property_age <|> (property.characteristics.bind Characteristics.property_age))))
    (some (computeAmenitiesScore
      ((property.amenities <|> (property.characteristics.bind Characteristics.amenities)).getD [])))

/-- Embeds `priceToScore` of `server.js` (lines 128-144): `null` when the
predicted price is not a number or the budget is falsy or non-positive;
otherwise the two-branch mapping on `ratio = predictedPrice / budget`. -/
def priceToScore (predictedPrice budget : Option ℚ) : Option ℚ :=
  match predictedPrice, budget with
  | none, _ => none
  | _, none => none
  | some p, some b =>
    if b ≤ 0 then none
    else
      let ratio := p / b
      if ratio ≤ 1 then some (60 + 40 * (1 - ratio))
      else some (max 0 (60 - min (ratio - 1) 1.5 * 40))

/-- Embeds `computeFinalScore` of `server.js` (lines 117-124): the rule score
alone when the ML price score is `null`, otherwise the fixed 0.7 / 0.3
blend. -/
def computeFinalScore (ruleScore : ℚ) (mlPriceScore : Option ℚ) : ℚ :=
  match mlPriceScore with
  | none => ruleScore
  | some m => 0.7 * ruleScore + 0.3 * m

/-- Rounding to two decimal places, modelling
`Number(x.toFixed(2))` at the output boundary of the handler. -/
def round2 (x : ℚ) : ℚ :=
  (round (x * 100) : ℤ) / 100

/-- Embeds the `matchScore` computed by the handler (`server.js` line 299):
the final score rounded to two decimals; the final score itself is never
`null` because the rule score always exists. -/
def matchScoreOf (ruleScore : ℚ) (mlPriceScore : Option ℚ) : ℚ :=
  round2 (computeFinalScore ruleScore mlPriceScore)

/-- The body of a successful ML-service response as read by
`getMlScoresForProperties`: a predictions map keyed by property id, whose
entries may be `null` (`none`) or objects whose `predicted_price` may fail
to be a number (inner `none`), plus the two flags.  Ids are modelled as
naturals. -/
structure MlResponseData where
  predictions : List (ℕ × Option (Option ℚ)) := []
  ml_used : Bool := false
  fallback : Bool := false
deriving DecidableEq

/-- The outcome of the single `axios.post` inside
`getMlScoresForProperties`: a rejection (transport error, timeout or
non-success status) or a resolution whose `data` may be absent. -/
inductive AxiosOutcome where
  | failure
  | success (data : Option MlResponseData)
deriving DecidableEq

/-- The value `getMlScoresForProperties` resolves with. -/
structure MlResult where
  scoresById : List (ℕ × ℚ)
  anyPrediction : Bool
  mlUsed : Bool
  fallback : Bool
deriving DecidableEq

/-- Whether a prediction entry carries a numeric `predicted_price`
(the guard `entry && typeof entry.predicted_price === "number"`). -/
def usableEntry (e : ℕ × Option (Option ℚ)) : Bool :=
  match e.2 with
  | some (some _) => true
  | _ => false

/-- Embeds `getMlScoresForProperties` of `mlClient.js` (lines 47-92).  All
fallible steps of the JavaScript body sit inside its `try`, so the function
always resolves: on any thrown error it returns the initial state (empty
scores, all flags false); on success it keeps exactly the prediction
entries carrying a numeric `predicted_price`, sets `anyPrediction` when one
was kept, and copies the two response flags. -/
def getMlScoresForProperties (o : AxiosOutcome) : MlResult :=
  match o with
  | .failure => ⟨[], false, false, false⟩
  | .success dataOpt =>
    let d := dataOpt.getD {}
    let scoresById := d.predictions.filterMap (fun e =>
      match e.2 with
      | some (some q) => some (e.1, q)
      | _ => none)
    ⟨scoresById, d.predictions.any usableEntry, d.ml_used, d.fallback⟩

/-- The two diagnostic messages of the `POST /recommendations` handler,
as distinct constants:
`unavailable` stands for the string
starting with Remote ML service unavailable, and
`noUsablePredictions` for the string starting with
Remote ML service responded without usable predictions. -/
inductive FallbackMessage where
  | unavailable
  | noUsablePredictions
deriving DecidableEq

/-- The ML-related state the handler accumulates in `server.js`
lines 206-229. -/
structure ServerMlState where
  mlCallSucceeded : Bool
  mlAnyPrediction : Bool
  mlScoreById : List (ℕ × ℚ)
  mlFallbackMessage : Option FallbackMessage
deriving DecidableEq

/-- Embeds `server.js` lines 206-229 on the path where `propertiesForML` is
non-empty: `call` is the settled promise of `getMlScoresForProperties` —
`Except.error` if it rejected (the `catch` branch), `Except.ok` with its
value otherwise — followed by the empty-result check of lines 227-229. -/
def serverMlState (call : Except Unit MlResult) : ServerMlState :=
  match call with
  | .error _ => ⟨false, false, [], some .unavailable⟩
  | .ok res =>
    let mlScoreById := res.scoresById
    let mlAnyPrediction := res.anyPrediction && !mlScoreById.isEmpty
    let msg : Option FallbackMessage :=
      if mlAnyPrediction then none else some .noUsablePredictions
    ⟨true, mlAnyPrediction, mlScoreById, msg⟩

/-- The handler state as a function of the underlying `axios` outcome:
`getMlScoresForProperties` is total (its body catches every error and
resolves normally), so the handler always takes the `Except.ok` path. -/
def serverMlStateFor (o : AxiosOutcome) : ServerMlState :=
  serverMlState (.ok (getMlScoresForProperties o))

/-- A scored recommendation as seen by the sort of `server.js` lines
324-329: only `scoring.final_score` matters for the order; `tag` stands for
the rest of the record and lets two entries with equal scores be told
apart. -/
structure ScoredRec where
  final_score : Option ℚ
  tag : ℕ
deriving DecidableEq

/-- The sort key of the comparator `(a, b) => bf - af` with
`final_score ?? -Infinity`: a missing final score becomes the bottom
element. -/
def sortKey (p : ScoredRec) : WithBot ℚ :=
  match p.final_score with
  | none => ⊥
  | some q => (q : WithBot ℚ)

/-- The total preorder realised by the descending comparator: `a` may come
before `b` exactly when the key of `b` is at most the key of `a`. -/
def scoreGE (a b : ScoredRec) : Prop :=
  sortKey b ≤ sortKey a

instance : DecidableRel scoreGE :=
  fun a b => inferInstanceAs (Decidable (sortKey b ≤ sortKey a))

/-- The stable descending sort of `enriched.sort((a, b) => bf - af)`
(ECMAScript sorts are stable), modelled as insertion sort under
`scoreGE`. -/
def sortByFinalScore (l : List ScoredRec) : List ScoredRec :=
  List.insertionSort scoreGE l

/-- Embeds the ranked output of the handler: the stable descending sort of
`server.js` lines 324-329 followed by the hard cap
`finalRecommendations.slice(0, 3)` of lines 336-339. -/
def topRecommendations (l : List ScoredRec) : List ScoredRec :=
  (sortByFinalScore l).take 3

/-! ### Range lemmas for the sub-scores -/

lemma computePriceMatchScore_range (p b : Option ℚ) :
    0 ≤ computePriceMatchScore p b ∧ computePriceMatchScore p b ≤ 100 := by
  cases b with
  | none => norm_num [computePriceMatchScore]
  | some b =>
    cases p with
    | none =>
      simp only [computePriceMatchScore]
      split_ifs <;> norm_num
    | some p =>
      simp only [computePriceMatchScore]
      split_ifs with hb hp hpb
      · norm_num
      · norm_num
      · norm_num
      · constructor
        · exact le_max_left 0 _
        · refine max_le (by norm_num) ?_
          have hb' : 0 < b := lt_of_not_le hb
          have hq : 0 ≤ (p - b) / b * 100 := by
            have : 0 ≤ (p - b) / b := div_nonneg (by linarith [lt_of_not_le hpb]) hb'.le
            linarith
          linarith

lemma computeBedroomScore_range (p m : Option ℚ) :
    0 ≤ computeBedroomScore p m ∧ computeBedroomScore p m ≤ 100 := by
  cases m with
  | none => norm_num [computeBedroomScore]
  | some m =>
    cases p with
    | none =>
      simp only [computeBedroomScore]
      split_ifs <;> norm_num
    | some p =>
      simp only [computeBedroomScore]
      split_ifs <;> norm_num

lemma computeSchoolRatingScore_range (r : Option ℚ) :
    0 ≤ computeSchoolRatingScore r ∧ computeSchoolRatingScore r ≤ 100 := by
  cases r with
  | none => norm_num [computeSchoolRatingScore]
  | some r =>
    simp only [computeSchoolRatingScore]
    exact ⟨le_max_left 0 _, max_le (by norm_num) (min_le_left _ _)⟩

lemma computeCommuteScore_range (t : Option ℚ) :
    0 ≤ computeCommuteScore t ∧ computeCommuteScore t ≤ 100 := by
  cases t with
  | none => norm_num [computeCommuteScore]
  | some t =>
    simp only [computeCommuteScore]
    split_ifs <;> norm_num

lemma computePropertyAgeScore_range (a : Option ℚ) :
    0 ≤ computePropertyAgeScore a ∧ computePropertyAgeScore a ≤ 100 := by
  cases a with
  | none => norm_num [computePropertyAgeScore]
  | some a =>
    simp only [computePropertyAgeScore]
    split_ifs <;> norm_num

lemma boolCount_range (x y z : Bool) :
    0 ≤ ((if x then (1:ℚ) else 0) + (if y then 1 else 0) + (if z then 1 else 0)) / 3 * 100 ∧
      ((if x then (1:ℚ) else 0) + (if y then 1 else 0) + (if z then 1 else 0)) / 3 * 100 ≤ 100 := by
  rcases x <;> rcases y <;> rcases z <;> norm_num

lemma computeAmenitiesScore_range (amenities : List String) :
    0 ≤ computeAmenitiesScore amenities ∧ computeAmenitiesScore amenities ≤ 100 := by
  unfold computeAmenitiesScore
  split_ifs with h
  · norm_num
  · exact boolCount_range _ _ _

lemma computeTotalScore_range (s₁ s₂ s₃ s₄ s₅ s₆ : ℚ)
    (h₁ : 0 ≤ s₁ ∧ s₁ ≤ 100) (h₂ : 0 ≤ s₂ ∧ s₂ ≤ 100)
    (h₃ : 0 ≤ s₃ ∧ s₃ ≤ 100) (h₄ : 0 ≤ s₄ ∧ s₄ ≤ 100)
    (h₅ : 0 ≤ s₅ ∧ s₅ ≤ 100) (h₆ : 0 ≤ s₆ ∧ s₆ ≤ 100) :
    0 ≤ computeTotalScore (some s₁) (some s₂) (some s₃) (some s₄) (some s₅) (some s₆) ∧
      computeTotalScore (some s₁) (some s₂) (some s₃) (some s₄) (some s₅) (some s₆) ≤ 100 := by
  obtain ⟨h₁l, h₁u⟩ := h₁
  obtain ⟨h₂l, h₂u⟩ := h₂
  obtain ⟨h₃l, h₃u⟩ := h₃
  obtain ⟨h₄l, h₄u⟩ := h₄
  obtain ⟨h₅l, h₅u⟩ := h₅
  obtain ⟨h₆l, h₆u⟩ := h₆
  unfold computeTotalScore
  simp only [Option.getD_some]
  norm_num
  constructor <;> linarith

lemma computeRuleScore_range (property : Property) (preferences : Preferences) :
    0 ≤ computeRuleScore property preferences ∧
      computeRuleScore property preferences ≤ 100 := by
  unfold computeRuleScore
  exact computeTotalScore_range _ _ _ _ _ _
    (computePriceMatchScore_range _ _) (computeBedroomScore_range _ _)
    (computeSchoolRatingScore_range _) (computeCommuteScore_range _)
    (computePropertyAgeScore_range _) (computeAmenitiesScore_range _)

lemma round2_range (x : ℚ) (h0 : 0 ≤ x) (h100 : x ≤ 100) :
    0 ≤ round2 x ∧ round2 x ≤ 100 := by
  unfold round2
  have hfloor : round (x * 100) = ⌊x * 100 + 1 / 2⌋ := round_eq (x * 100)
  have hlow : (0 : ℤ) ≤ round (x * 100) := by
    rw [hfloor]
    exact Int.le_floor.mpr (by push_cast; linarith)
  have hup : round (x * 100) ≤ 10000 := by
    rw [hfloor]
    have h1 : (⌊x * 100 + 1 / 2⌋ : ℚ) ≤ x * 100 + 1 / 2 := Int.floor_le _
    have h2 : (⌊x * 100 + 1 / 2⌋ : ℚ) < 10001 := by linarith
    have h3 : ⌊x * 100 + 1 / 2⌋ < 10001 := by exact_mod_cast h2
    omega
  constructor
  · positivity
  · rw [div_le_iff₀ (by norm_num : (0:ℚ) < 100)]
    calc ((round (x * 100) : ℤ) : ℚ) ≤ ((10000 : ℤ) : ℚ) := by exact_mod_cast hup
    _ = 100 * 100 := by norm_num

lemma priceToScore_eq (p b : ℚ) (hb : 0 < b) :
    priceToScore (some p) (some b) =
      if p / b ≤ 1 then some (60 + 40 * (1 - p / b))
      else some (max 0 (60 - min (p / b - 1) 1.5 * 40)) := by
  simp only [priceToScore]
  rw [if_neg (not_le.mpr hb)]

lemma priceToScore_range (p b s : ℚ) (hp : 0 ≤ p) (hb : 0 < b)
    (hs : priceToScore (some p) (some b) = some s) : 0 ≤ s ∧ s ≤ 100 := by
  rw [priceToScore_eq p b hb] at hs
  have hr0 : 0 ≤ p / b := div_nonneg hp hb.le
  by_cases hr : p / b ≤ 1
  · rw [if_pos hr] at hs
    injection hs with h
    constructor <;> linarith
  · rw [if_neg hr] at hs
    injection hs with h
    have hmin : 0 ≤ min (p / b - 1) 1.5 :=
      le_min (by linarith [lt_of_not_le hr]) (by norm_num)
    constructor
    · rw [← h]; exact le_max_left 0 _
    · rw [← h]
      refine max_le (by norm_num) ?_
      linarith

lemma matchScoreOf_range (r : ℚ) (ml : Option ℚ) (hr0 : 0 ≤ r) (hr1 : r ≤ 100)
    (hml : ∀ m, ml = some m → 0 ≤ m ∧ m ≤ 100) :
    0 ≤ matchScoreOf r ml ∧ matchScoreOf r ml ≤ 100 := by
  cases ml with
  | none =>
    simp only [matchScoreOf, computeFinalScore]
    exact round2_range r hr0 hr1
  | some m =>
    obtain ⟨hm0, hm1⟩ := hml m rfl
    simp only [matchScoreOf, computeFinalScore]
    exact round2_range _ (by norm_num; linarith) (by norm_num; linarith)

/-! ### Claims -/

/-- Claim C1, counterexample: in the `POST /recommendations` handler a
`null` budget is NOT treated as no constraint — it is replaced by the
default 250000, which then excludes by budget a property priced 300000 and
makes the price-dependent scores differ from the no-budget values. -/
theorem C1_counterexample :
    normalizeBudget .missing = 250000 ∧
    filterProperties [{ price := some 300000 }]
      { budget := some (normalizeBudget .missing) } = [] ∧
    computePriceMatchScore (some 300000) (some (normalizeBudget .missing)) ≠
      computePriceMatchScore (some 300000) none ∧
    priceToScore (some 300000) (some (normalizeBudget .missing)) ≠
      priceToScore (some 300000) none := by
  have hpm : computePriceMatchScore (some 300000) (some (normalizeBudget .missing)) = 80 := by
    simp only [normalizeBudget, toNumberOrNull, Option.getD_none, computePriceMatchScore]
    norm_num
  have hpts : priceToScore (some 300000) (some (normalizeBudget .missing)) = some 52 := by
    simp only [normalizeBudget, toNumberOrNull, Option.getD_none]
    rw [priceToScore_eq 300000 250000 (by norm_num)]
    norm_num
  refine ⟨rfl, by decide, ?_, ?_⟩
  · rw [hpm]
    norm_num [computePriceMatchScore]
  · rw [hpts]
    simp [priceToScore]

/-- Claim C1 (amended): a supplied budget that is zero or negative is kept
by the normalisation and is treated as no constraint — no property is
excluded by budget filtering and both price-dependent scores take the same
neutral (50) / absent (`null`) values as with no budget at all; a `null`
budget, however, is replaced by the default 250000 and does constrain. -/
theorem C1_nonpositive_budget_no_constraint (b : ℚ) (hb : b ≤ 0)
    (q : Option ℚ) (property : Property) :
    normalizeBudget (.num b) = b ∧
    normalizeBudget .missing = 250000 ∧
    fitsBudget property (some b) = true ∧
    computePriceMatchScore q (some b) = computePriceMatchScore q none ∧
    priceToScore q (some b) = priceToScore q none := by
  refine ⟨rfl, rfl, ?_, ?_, ?_⟩
  · simp [fitsBudget, hb]
  · cases q <;> simp [computePriceMatchScore, hb]
  · cases q <;> simp [priceToScore, hb]

/-- Claim C1 witness: the amended statement at budget 0 and a concrete
property. -/
theorem C1_witness :
    normalizeBudget (.num 0) = 0 ∧
    normalizeBudget .missing = 250000 ∧
    fitsBudget { price := some 300000 } (some 0) = true ∧
    computePriceMatchScore (some 100) (some 0) = computePriceMatchScore (some 100) none ∧
    priceToScore (some 100) (some 0) = priceToScore (some 100) none :=
  C1_nonpositive_budget_no_constraint 0 (by norm_num) (some 100) { price := some 300000 }

/-- Claim C2, counterexample: `priceToScore` applied to a negative numeric
predicted price returns a non-null value above 100, so its non-null output
does not always lie in [0,100]. -/
theorem C2_counterexample :
    priceToScore (some (-100)) (some 100) = some 140 ∧ ¬(140 : ℚ) ≤ 100 := by
  constructor
  · rw [priceToScore_eq (-100) 100 (by norm_num)]
    norm_num
  · norm_num

/-- Claim C2 (amended): every sub-score of `scoring.js` lies in [0,100] for
all inputs, `computeTotalScore` lies in [0,100] whenever its six inputs do,
the rule score always lies in [0,100], `priceToScore` when non-null lies in
[0,100] provided the predicted price is nonnegative (a negative numeric
predicted price escapes the range, see the counterexample), and the rounded
blended matchScore lies in [0,100] whenever the rule score does and the ML
price score is absent or in range; an unavailable ML price score is the
`Option` value `none`, never a sentinel number. -/
theorem C2_scores_in_range
    (pp bb bd mb sr ct ag : Option ℚ) (amenities : List String)
    (property : Property) (preferences : Preferences)
    (s₁ s₂ s₃ s₄ s₅ s₆ : ℚ)
    (h₁ : 0 ≤ s₁ ∧ s₁ ≤ 100) (h₂ : 0 ≤ s₂ ∧ s₂ ≤ 100)
    (h₃ : 0 ≤ s₃ ∧ s₃ ≤ 100) (h₄ : 0 ≤ s₄ ∧ s₄ ≤ 100)
    (h₅ : 0 ≤ s₅ ∧ s₅ ≤ 100) (h₆ : 0 ≤ s₆ ∧ s₆ ≤ 100)
    (p b s : ℚ) (hp : 0 ≤ p) (hb : 0 < b)
    (hs : priceToScore (some p) (some b) = some s)
    (r : ℚ) (ml : Option ℚ) (hr0 : 0 ≤ r) (hr1 : r ≤ 100)
    (hml : ∀ m, ml = some m → 0 ≤ m ∧ m ≤ 100) :
    (0 ≤ computePriceMatchScore pp bb ∧ computePriceMatchScore pp bb ≤ 100) ∧
    (0 ≤ computeBedroomScore bd mb ∧ computeBedroomScore bd mb ≤ 100) ∧
    (0 ≤ computeSchoolRatingScore sr ∧ computeSchoolRatingScore sr ≤ 100) ∧
    (0 ≤ computeCommuteScore ct ∧ computeCommuteScore ct ≤ 100) ∧
    (0 ≤ computePropertyAgeScore ag ∧ computePropertyAgeScore ag ≤ 100) ∧
    (0 ≤ computeAmenitiesScore amenities ∧ computeAmenitiesScore amenities ≤ 100) ∧
    (0 ≤ computeTotalScore (some s₁) (some s₂) (some s₃) (some s₄) (some s₅) (some s₆) ∧
      computeTotalScore (some s₁) (some s₂) (some s₃) (some s₄) (some s₅) (some s₆) ≤ 100) ∧
    (0 ≤ computeRuleScore property preferences ∧
      computeRuleScore property preferences ≤ 100) ∧
    (0 ≤ s ∧ s ≤ 100) ∧
    (0 ≤ matchScoreOf r ml ∧ matchScoreOf r ml ≤ 100) :=
  ⟨computePriceMatchScore_range pp bb, computeBedroomScore_range bd mb,
    computeSchoolRatingScore_range sr, computeCommuteScore_range ct,
    computePropertyAgeScore_range ag, computeAmenitiesScore_range amenities,
    computeTotalScore_range s₁ s₂ s₃ s₄ s₅ s₆ h₁ h₂ h₃ h₄ h₅ h₆,
    computeRuleScore_range property preferences,
    priceToScore_range p b s hp hb hs,
    matchScoreOf_range r ml hr0 hr1 hml⟩

/-- Claim C2 witness: the amended statement at a fully concrete input. -/
theorem C2_witness :
    (0 ≤ computePriceMatchScore (some 300000) (some 250000) ∧
      computePriceMatchScore (some 300000) (some 250000) ≤ 100) ∧
    (0 ≤ computeBedroomScore (some 3) (some 2) ∧
      computeBedroomScore (some 3) (some 2) ≤ 100) ∧
    (0 ≤ computeSchoolRatingScore (some 8) ∧ computeSchoolRatingScore (some 8) ≤ 100) ∧
    (0 ≤ computeCommuteScore (some 20) ∧ computeCommuteScore (some 20) ≤ 100) ∧
    (0 ≤ computePropertyAgeScore (some 12) ∧ computePropertyAgeScore (some 12) ≤ 100) ∧
    (0 ≤ computeAmenitiesScore [] ∧ computeAmenitiesScore [] ≤ 100) ∧
    (0 ≤ computeTotalScore (some 80) (some 100) (some 80) (some 80) (some 80) (some 0) ∧
      computeTotalScore (some 80) (some 100) (some 80) (some 80) (some 80) (some 0) ≤ 100) ∧
    (0 ≤ computeRuleScore {} {} ∧ computeRuleScore {} {} ≤ 100) ∧
    (0 ≤ (78 : ℚ) ∧ (78 : ℚ) ≤ 100) ∧
    (0 ≤ matchScoreOf 80 (some 90) ∧ matchScoreOf 80 (some 90) ≤ 100) := by
  refine C2_scores_in_range (some 300000) (some 250000) (some 3) (some 2) (some 8)
    (some 20) (some 12) [] {} {} 80 100 80 80 80 0
    (by norm_num) (by norm_num) (by norm_num) (by norm_num) (by norm_num) (by norm_num)
    55 100 78 (by norm_num) (by norm_num)
    (by rw [priceToScore_eq 55 100 (by norm_num)]; norm_num)
    80 (some 90) (by norm_num) (by norm_num) ?_
  intro m hm
  injection hm with h
  rw [← h]
  norm_num

/-- Claim C3, counterexample: `priceToScore` does not return `null` for a
non-positive predicted price — a zero predicted price with a positive
budget yields `some 100`. -/
theorem C3_counterexample :
    priceToScore (some 0) (some 100) = some 100 ∧
      priceToScore (some 0) (some 100) ≠ none := by
  have h : priceToScore (some 0) (some 100) = some 100 := by
    rw [priceToScore_eq 0 100 (by norm_num)]
    norm_num
  exact ⟨h, by rw [h]; exact Option.some_ne_none _⟩

/-- Claim C3 (amended): `priceToScore` returns `null` exactly when the
predicted price is missing (not a number) or the budget is missing, zero or
negative; otherwise — for every numeric predicted price, including zero and
negative values — with ratio = predictedPrice / budget it returns
`60 + 40 × (1 − ratio)` when ratio ≤ 1 and
`max(0, 60 − 40 × min(ratio − 1, 1.5))` when ratio > 1. -/
theorem C3_priceToScore_characterization (p b b' : ℚ) (bOpt : Option ℚ)
    (hb0 : b ≤ 0) (hb' : 0 < b') :
    priceToScore none bOpt = none ∧
    priceToScore (some p) none = none ∧
    priceToScore (some p) (some b) = none ∧
    priceToScore (some p) (some b') =
      (if p / b' ≤ 1 then some (60 + 40 * (1 - p / b'))
       else some (max 0 (60 - 40 * min (p / b' - 1) 1.5))) := by
  refine ⟨by cases bOpt <;> rfl, rfl, ?_, ?_⟩
  · simp [priceToScore, hb0]
  · rw [priceToScore_eq p b' hb']
    split_ifs with h
    · rfl
    · rw [mul_comm (min (p / b' - 1) 1.5) 40]

/-- Claim C3 witness: the amended statement at concrete inputs. -/
theorem C3_witness :
    priceToScore none (some 5) = none ∧
    priceToScore (some 100) none = none ∧
    priceToScore (some 100) (some (-1)) = none ∧
    priceToScore (some 100) (some 2) =
      (if (100 : ℚ) / 2 ≤ 1 then some (60 + 40 * (1 - (100 : ℚ) / 2))
       else some (max 0 (60 - 40 * min ((100 : ℚ) / 2 - 1) 1.5))) :=
  C3_priceToScore_characterization 100 (-1) 2 (some 5) (by norm_num) (by norm_num)

/-- Claim C5 (confirmed): `computeFinalScore` returns exactly the rule score
when the ML price score is `null` and exactly the 0.7 / 0.3 blend
otherwise, and the handler rounds to two decimals only at the output
boundary — `matchScore` is the rounding of the exact blend. -/
theorem C5_blend (r m : ℚ) (ml : Option ℚ) :
    computeFinalScore r none = r ∧
    computeFinalScore r (some m) = 0.7 * r + 0.3 * m ∧
    matchScoreOf r ml = round2 (computeFinalScore r ml) :=
  ⟨rfl, rfl, rfl⟩

/-- Claim C4 (code bug): the two degraded outcomes are NOT surfaced with
different diagnostic messages.  `getMlScoresForProperties` resolves
normally on every axios outcome, so the handler's `catch` branch — the only
producer of the distinct unavailable message — is unreachable: a transport
failure yields the same message as a successful call with zero usable
predictions.  The last conjunct shows the `catch` branch itself would
produce the distinct message if the promise could reject. -/
theorem C4_fallback_messages_not_distinct :
    (serverMlStateFor .failure).mlFallbackMessage = some .noUsablePredictions ∧
    (serverMlStateFor (.success (some { predictions := [], ml_used := true }))).mlFallbackMessage =
      some .noUsablePredictions ∧
    (∀ o : AxiosOutcome, (serverMlStateFor o).mlFallbackMessage ≠ some .unavailable) ∧
    serverMlState (.error ()) =
      { mlCallSucceeded := false, mlAnyPrediction := false, mlScoreById := [],
        mlFallbackMessage := some .unavailable } := by
  refine ⟨rfl, rfl, ?_, rfl⟩
  intro o
  simp only [serverMlStateFor, serverMlState]
  split_ifs <;> simp

lemma anyUsable_eq_not_isEmpty (l : List (ℕ × Option (Option ℚ))) :
    l.any usableEntry =
      !(l.filterMap (fun e =>
        match e.2 with
        | some (some q) => some (e.1, q)
        | _ => none)).isEmpty := by
  induction l with
  | nil => rfl
  | cons e t ih =>
    obtain ⟨k, v⟩ := e
    match v with
    | none => simpa [usableEntry] using ih
    | some none => simpa [usableEntry] using ih
    | some (some q) => simp [usableEntry]

/-- Claim C10 (confirmed): `getMlScoresForProperties` is a total function of
the axios outcome — modelled as such, reflecting that every fallible step
of its body is inside its `try` — whose `scoresById` keeps exactly the
response entries with a numeric `predicted_price`, whose `anyPrediction` is
true precisely when one such entry exists, and which returns empty scores
with all flags false on a thrown error (and likewise on a response with no
`data`). -/
theorem C10_getMlScores_total (d : MlResponseData) (k : ℕ) (q : ℚ) (o : AxiosOutcome) :
    getMlScoresForProperties .failure =
      { scoresById := [], anyPrediction := false, mlUsed := false, fallback := false } ∧
    getMlScoresForProperties (.success none) =
      { scoresById := [], anyPrediction := false, mlUsed := false, fallback := false } ∧
    ((k, q) ∈ (getMlScoresForProperties (.success (some d))).scoresById ↔
      (k, some (some q)) ∈ d.predictions) ∧
    (getMlScoresForProperties o).anyPrediction =
      !(getMlScoresForProperties o).scoresById.isEmpty := by
  refine ⟨rfl, rfl, ?_, ?_⟩
  · simp only [getMlScoresForProperties, List.mem_filterMap]
    constructor
    · rintro ⟨⟨k', v⟩, hmem, hf⟩
      match v with
      | none => exact absurd hf (by simp)
      | some none => exact absurd hf (by simp)
      | some (some q') =>
        simp only [Option.some.injEq, Prod.mk.injEq] at hf
        obtain ⟨rfl, rfl⟩ := hf
        exact hmem
    · intro h
      exact ⟨(k, some (some q)), h, rfl⟩
  · cases o with
    | failure => rfl
    | success dataOpt =>
      cases dataOpt with
      | none => rfl
      | some d' => exact anyUsable_eq_not_isEmpty d'.predictions

instance : IsTotal ScoredRec scoreGE :=
  ⟨fun a b => le_total (sortKey b) (sortKey a)⟩

instance : IsTrans ScoredRec scoreGE :=
  ⟨fun _ _ _ hab hbc => le_trans hbc hab⟩

lemma sortByFinalScore_stable (l : List ScoredRec) (k : WithBot ℚ) :
    (sortByFinalScore l).filter (fun x => decide (sortKey x = k)) =
      l.filter (fun x => decide (sortKey x = k)) := by
  have hperm :=
    (List.perm_insertionSort scoreGE l).filter (fun x => decide (sortKey x = k))
  have hpair : (l.filter (fun x => decide (sortKey x = k))).Pairwise scoreGE := by
    apply List.pairwise_of_forall_mem_list
    intro a ha b hb
    have ha' : sortKey a = k := of_decide_eq_true (List.mem_filter.mp ha).2
    have hb' : sortKey b = k := of_decide_eq_true (List.mem_filter.mp hb).2
    unfold scoreGE
    rw [ha', hb']
  have hsub : List.Sublist (l.filter (fun x => decide (sortKey x = k))) (sortByFinalScore l) :=
    List.sublist_insertionSort hpair (List.filter_sublist l)
  have hsub2 : List.Sublist (l.filter (fun x => decide (sortKey x = k)))
      ((sortByFinalScore l).filter (fun x => decide (sortKey x = k))) := by
    have h2 := hsub.filter (fun x => decide (sortKey x = k))
    simpa [List.filter_filter] using h2
  exact (hsub2.eq_of_length hperm.length_eq.symm).symm

/-- Claim C6 (confirmed): the ranked output is the first three entries of
the stable descending sort of the scored properties — its length is
`min 3 n`, the underlying sort is a permutation of the input, it is sorted
so that each later entry's final-score key is at most each earlier one's,
entries with equal keys keep their input relative order, and an entry with
a missing final score has the bottom key, hence is ranked at most as high
as any other entry. -/
theorem C6_topRecommendations_spec (l : List ScoredRec) :
    (topRecommendations l).length = min 3 l.length ∧
    topRecommendations l = (sortByFinalScore l).take 3 ∧
    List.Perm (sortByFinalScore l) l ∧
    List.Sorted scoreGE (sortByFinalScore l) ∧
    (∀ k : WithBot ℚ,
      (sortByFinalScore l).filter (fun x => decide (sortKey x = k)) =
        l.filter (fun x => decide (sortKey x = k))) ∧
    (∀ (y : ScoredRec) (t : ℕ), scoreGE y { final_score := none, tag := t }) := by
  refine ⟨?_, rfl, List.perm_insertionSort scoreGE l,
    List.sorted_insertionSort scoreGE l, fun k => sortByFinalScore_stable l k,
    fun y t => ?_⟩
  · rw [topRecommendations, List.length_take, sortByFinalScore, List.length_insertionSort]
  · show sortKey { final_score := none, tag := t } ≤ sortKey y
    exact bot_le

lemma computePriceMatchScore_pos_eq (b p : ℚ) (hb : 0 < b) (hp : 0 < p) :
    computePriceMatchScore (some p) (some b) =
      max 0 (min 100 (100 - (p - b) / b * 100)) := by
  simp only [computePriceMatchScore]
  rw [if_neg (not_le.mpr hb), if_neg (ne_of_gt hp)]
  rcases le_or_lt p b with hpb | hpb
  · rw [if_pos hpb]
    have h1 : (p - b) / b ≤ 0 := (div_le_iff₀ hb).mpr (by linarith)
    have h2 : (p - b) / b * 100 ≤ 0 := by linarith
    rw [min_eq_left (by linarith), max_eq_right (by norm_num)]
  · rw [if_neg (not_le.mpr hpb)]
    have h1 : 0 < (p - b) / b := div_pos (by linarith) hb
    have h2 : 0 < (p - b) / b * 100 := by linarith
    rw [min_eq_right (by linarith)]

lemma clamp_abs_le (x y : ℚ) :
    |max 0 (min 100 x) - max 0 (min 100 y)| ≤ |x - y| := by
  have h1 : |max 0 (min 100 x) - max 0 (min 100 y)| ≤ |min 100 x - min 100 y| := by
    rw [max_comm 0 (min 100 x), max_comm 0 (min 100 y)]
    exact abs_max_sub_max_le_abs _ _ _
  have h2 : |min 100 x - min 100 y| ≤ |x - y| := by
    refine le_trans (abs_min_sub_min_le_max 100 x 100 y) ?_
    simp
  exact le_trans h1 h2

lemma computePriceMatchScore_antitone (b p₁ p₂ : ℚ) (hb : 0 < b)
    (hp₁ : 0 < p₁) (h : p₁ ≤ p₂) :
    computePriceMatchScore (some p₂) (some b) ≤
      computePriceMatchScore (some p₁) (some b) := by
  have hp₂ : 0 < p₂ := lt_of_lt_of_le hp₁ h
  rw [computePriceMatchScore_pos_eq b p₁ hb hp₁,
    computePriceMatchScore_pos_eq b p₂ hb hp₂]
  have h2 : (p₁ - b) / b ≤ (p₂ - b) / b :=
    (div_le_div_iff_of_pos_right hb).mpr (by linarith)
  have hx : 100 - (p₂ - b) / b * 100 ≤ 100 - (p₁ - b) / b * 100 := by linarith
  exact max_le_max le_rfl (min_le_min le_rfl hx)

lemma computePriceMatchScore_lipschitz (b p₁ p₂ : ℚ) (hb : 0 < b)
    (hp₁ : 0 < p₁) (hp₂ : 0 < p₂) :
    |computePriceMatchScore (some p₁) (some b) -
        computePriceMatchScore (some p₂) (some b)| ≤ 100 / b * |p₁ - p₂| := by
  rw [computePriceMatchScore_pos_eq b p₁ hb hp₁,
    computePriceMatchScore_pos_eq b p₂ hb hp₂]
  refine le_trans (clamp_abs_le _ _) ?_
  have heq : (100 - (p₁ - b) / b * 100) - (100 - (p₂ - b) / b * 100) =
      (p₂ - p₁) * (100 / b) := by
    field_simp
    ring
  rw [heq, abs_mul, abs_of_pos (by positivity : (0:ℚ) < 100 / b), abs_sub_comm p₂ p₁,
    mul_comm]

/-- Claim C7, counterexample: a supplied predicted price of exactly 0 with a
positive budget yields 50, not 100, although 0 ≤ budget — the JavaScript
falsiness guard treats a zero predicted price like an absent one. -/
theorem C7_counterexample :
    computePriceMatchScore (some 0) (some 100) = 50 ∧
    (0 : ℚ) ≤ 100 ∧ (50 : ℚ) ≠ 100 := by
  refine ⟨?_, by norm_num, by norm_num⟩
  simp only [computePriceMatchScore]
  norm_num

/-- Claim C7 (amended): for every fixed positive budget,
`computePriceMatchScore` returns 50 when the budget or the predicted price
is not supplied and also when the predicted price is 0 (falsy), 100
whenever a nonzero predicted price is at most the budget (so exactly 100 at
predictedPrice = budget), and `max(0, 100 − 100 × (p − b) / b)` when the
predicted price exceeds the budget; over positive predicted prices it is
monotonically non-increasing and continuous — Lipschitz with constant
100 / budget, hence satisfying the ε-δ property. -/
theorem C7_priceMatch_spec (b : ℚ) (hb : 0 < b) :
    (∀ q : Option ℚ, computePriceMatchScore q none = 50) ∧
    computePriceMatchScore none (some b) = 50 ∧
    computePriceMatchScore (some 0) (some b) = 50 ∧
    (∀ p : ℚ, p ≠ 0 → p ≤ b → computePriceMatchScore (some p) (some b) = 100) ∧
    computePriceMatchScore (some b) (some b) = 100 ∧
    (∀ p : ℚ, b < p → computePriceMatchScore (some p) (some b) =
      max 0 (100 - 100 * (p - b) / b)) ∧
    (∀ p₁ p₂ : ℚ, 0 < p₁ → p₁ ≤ p₂ →
      computePriceMatchScore (some p₂) (some b) ≤
        computePriceMatchScore (some p₁) (some b)) ∧
    (∀ p₁ p₂ : ℚ, 0 < p₁ → 0 < p₂ →
      |computePriceMatchScore (some p₁) (some b) -
          computePriceMatchScore (some p₂) (some b)| ≤ 100 / b * |p₁ - p₂|) ∧
    (∀ p₀ ε : ℚ, 0 < p₀ → 0 < ε → ∃ δ : ℚ, 0 < δ ∧ ∀ p : ℚ, 0 < p → |p - p₀| < δ →
      |computePriceMatchScore (some p) (some b) -
          computePriceMatchScore (some p₀) (some b)| < ε) := by
  have hbne := not_le.mpr hb
  refine ⟨fun q => by cases q <;> rfl, ?_, ?_, ?_, ?_, ?_, ?_, ?_, ?_⟩
  · simp only [computePriceMatchScore]
    rw [if_neg hbne]
  · simp only [computePriceMatchScore]
    rw [if_neg hbne]
    norm_num
  · intro p hp hpb
    simp only [computePriceMatchScore]
    rw [if_neg hbne, if_neg hp, if_pos hpb]
  · simp only [computePriceMatchScore]
    rw [if_neg hbne, if_neg (ne_of_gt hb), if_pos le_rfl]
  · intro p hpb
    simp only [computePriceMatchScore]
    rw [if_neg hbne, if_neg (ne_of_gt (lt_trans hb hpb)), if_neg (not_le.mpr hpb)]
    congr 1
    ring
  · exact fun p₁ p₂ h1 h2 => computePriceMatchScore_antitone b p₁ p₂ hb h1 h2
  · exact fun p₁ p₂ h1 h2 => computePriceMatchScore_lipschitz b p₁ p₂ hb h1 h2
  · intro p₀ ε hp₀ hε
    refine ⟨ε * b / 100, by positivity, fun p hp hpd => ?_⟩
    have hl := computePriceMatchScore_lipschitz b p p₀ hb hp hp₀
    have hmul : 100 / b * |p - p₀| < 100 / b * (ε * b / 100) :=
      mul_lt_mul_of_pos_left hpd (by positivity)
    have heq : 100 / b * (ε * b / 100) = ε := by
      field_simp
      ring
    linarith

/-- Claim C7 witness: the amended statement at budget 100 and concrete
predicted prices. -/
theorem C7_witness :
    computePriceMatchScore none (some 100) = 50 ∧
    computePriceMatchScore (some 0) (some 100) = 50 ∧
    computePriceMatchScore (some 40) (some 100) = 100 ∧
    computePriceMatchScore (some 100) (some 100) = 100 ∧
    computePriceMatchScore (some 150) (some 100) =
      max 0 (100 - 100 * ((150 : ℚ) - 100) / 100) ∧
    computePriceMatchScore (some 150) (some 100) ≤
      computePriceMatchScore (some 120) (some 100) ∧
    |computePriceMatchScore (some 120) (some 100) -
        computePriceMatchScore (some 150) (some 100)| ≤
      100 / 100 * |(120 : ℚ) - 150| := by
  have h := C7_priceMatch_spec 100 (by norm_num)
  exact ⟨h.2.1, h.2.2.1, h.2.2.2.1 40 (by norm_num) (by norm_num), h.2.2.2.2.1,
    h.2.2.2.2.2.1 150 (by norm_num),
    h.2.2.2.2.2.2.1 120 150 (by norm_num) (by norm_num),
    h.2.2.2.2.2.2.2.1 120 150 (by norm_num) (by norm_num)⟩

/-- Claim C8 (confirmed): `priceToScore` is continuous at ratio 1 — at
predictedPrice = budget it returns 60, and each branch formula evaluated at
ratio 1 is 60 — and it returns exactly 0 whenever
predictedPrice ≥ 2.5 × budget. -/
theorem C8_priceToScore_boundary (b : ℚ) (hb : 0 < b) :
    priceToScore (some b) (some b) = some 60 ∧
    60 + 40 * (1 - (1 : ℚ)) = 60 ∧
    max 0 (60 - min ((1 : ℚ) - 1) 1.5 * 40) = 60 ∧
    (∀ p : ℚ, 2.5 * b ≤ p → priceToScore (some p) (some b) = some 0) := by
  refine ⟨?_, by norm_num, by norm_num, ?_⟩
  · rw [priceToScore_eq b b hb, if_pos (by simp [div_self (ne_of_gt hb)])]
    rw [div_self (ne_of_gt hb)]
    norm_num
  · intro p hp
    have hr : 2.5 ≤ p / b := (le_div_iff₀ hb).mpr (by linarith)
    rw [priceToScore_eq p b hb, if_neg (by intro h; norm_num at hr h; linarith)]
    rw [min_eq_right (by norm_num at hr ⊢; linarith)]
    norm_num

/-- Claim C8 witness: budget 2; at the boundary the score is 60, and at
predicted price 5 = 2.5 × 2 the score clamps to 0. -/
theorem C8_witness :
    priceToScore (some 2) (some 2) = some 60 ∧
    priceToScore (some 5) (some 2) = some 0 := by
  have h := C8_priceToScore_boundary 2 (by norm_num)
  exact ⟨h.1, h.2.2.2 5 (by norm_num)⟩

/-- Claim C9 (confirmed): the pre-scoring filter never excludes a property
whose constraining datum is unknown — with no resolvable price `fitsBudget`
passes for every budget, with no resolvable bedroom count
`meetsBedroomRequirement` passes for every minimum, and such a property
(when its location passes) is kept by `filterProperties`; in contrast, in
scoring a missing bedroom count under a positive minimum scores 0. -/
theorem C9_missing_data_passes_filter (budget minB : Option ℚ) (m : ℚ)
    (property : Property) (properties : List Property) (preferences : Preferences)
    (hprice : resolvePrice property = none) (hbeds : resolveBeds property = none)
    (hm : 0 < m) (hmem : property ∈ properties)
    (hloc : matchesPreferredLocation property preferences.preferredLocations = true) :
    fitsBudget property budget = true ∧
    meetsBedroomRequirement property minB = true ∧
    computeBedroomScore none (some m) = 0 ∧
    property ∈ filterProperties properties preferences := by
  have hfits : ∀ bOpt : Option ℚ, fitsBudget property bOpt = true := by
    intro bOpt
    cases bOpt with
    | none => rfl
    | some b => simp [fitsBudget, hprice]
  have hmeets : ∀ mOpt : Option ℚ, meetsBedroomRequirement property mOpt = true := by
    intro mOpt
    cases mOpt with
    | none => rfl
    | some mb => simp [meetsBedroomRequirement, hbeds]
  refine ⟨hfits budget, hmeets minB, ?_, ?_⟩
  · simp only [computeBedroomScore]
    rw [if_neg (not_le.mpr hm)]
  · refine List.mem_filter.mpr ⟨hmem, ?_⟩
    rw [hfits preferences.budget, hmeets preferences.minBedrooms, hloc]
    rfl

/-- Claim C9 witness: a property with no price and no bedroom fields passes
a binding budget and bedroom filter, while its bedroom sub-score is 0. -/
theorem C9_witness :
    fitsBudget {} (some 500000) = true ∧
    meetsBedroomRequirement {} (some 3) = true ∧
    computeBedroomScore none (some 3) = 0 ∧
    ({} : Property) ∈ filterProperties [{}]
      { budget := some 500000, minBedrooms := some 3 } :=
  C9_missing_data_passes_filter (some 500000) (some 3) 3 {} [{}] _ rfl rfl
    (by norm_num) (List.mem_singleton.mpr rfl) rfl
